import Mathlib

/-!
# Verification of the storybook session lifecycle and editor protocol

Shallow embedding of the storybook editing flow of the `ai_content_suite`
repository.  The frontend TypeScript (the edit page, the start page and the
PDF preview modal) is embedded directly from the source files.  The FastAPI
backend (session store over Redis, scene editor protocol handlers,
preview/finalize flow) is not part of the source tree, only its README and
its callers are; those operations are modelled from the specification and
are marked `Modelled from the spec:` in their doc comments.
-/

namespace AiContentSuite

/-- A scene of a storybook session: free text plus an optional image URL.
From the `Scene` interface of the edit page. -/
structure Scene where
  text : String
  image_url : Option String
deriving Repr, DecidableEq

/-- Font styling options of a session.  From the `Styles` interface of the
edit page; `font_size` is a JS number handled through `parseInt`, so an
integer. -/
structure Styles where
  font_name : String
  font_size : Int
deriving Repr, DecidableEq

/-- Full session state mirrored by the client.  From the `StorybookSession`
interface of the edit page. -/
structure StorybookSession where
  session_id : String
  styles : Styles
  scenes : List Scene
  title : String
  author : String
deriving Repr, DecidableEq

/-- Error taxonomy of the backend protocol (spec section 7). -/
inductive ApiError where
  | NotFound
  | OutOfRange
  | InvalidStyle
  | GenerationFailed
  | RenderFailed
  | StorageUnavailable
deriving Repr, DecidableEq

/-- Modelled from the spec: the Session Store is one cache entry per
`session_id` whose value is the serialized session.  Embedded as an
association list from identifiers to sessions. -/
abbrev Store := List (String × StorybookSession)

/-- Lookup of a session by identifier in the store. -/
def storeFind : Store → String → Option StorybookSession
  | [], _ => none
  | (k, v) :: rest, sid => if k = sid then some v else storeFind rest sid

/-- Overwrite the value held under a key (the per-key atomic write of the
cache); keys that are absent stay absent. -/
def storeSet : Store → String → StorybookSession → Store
  | [], _, _ => []
  | (k, v) :: rest, sid, s =>
      if k = sid then (k, s) :: rest else (k, v) :: storeSet rest sid s

/-- Modelled from the spec: `delete(session_id)` removes the session;
idempotent (deleting an absent session is not an error). -/
def storeDelete : Store → String → Store
  | [], _ => []
  | (k, v) :: rest, sid =>
      if k = sid then storeDelete rest sid else (k, v) :: storeDelete rest sid

/-- Modelled from the spec: `get(session_id)` fails `NotFound` if absent or
expired. -/
def getState (st : Store) (sid : String) : Except ApiError StorybookSession :=
  match storeFind st sid with
  | none => .error .NotFound
  | some s => .ok s

/-- Overwrite the text of the scene at one index, leaving every other scene
and the image of the targeted scene alone.  Mirrors the indexed `map` the
client uses and the single-field write path of the store contract. -/
def setSceneText (scenes : List Scene) (idx : Nat) (txt : String) : List Scene :=
  scenes.mapIdx (fun i sc => if i = idx then { sc with text := txt } else sc)

/-- Overwrite the image URL of the scene at one index, leaving every other
scene and the text of the targeted scene alone. -/
def setSceneImage (scenes : List Scene) (idx : Nat) (url : String) : List Scene :=
  scenes.mapIdx (fun i sc => if i = idx then { sc with image_url := some url } else sc)

/-- Modelled from the spec: update scene text (session_id, scene_index,
text); fails `OutOfRange` if scene_index ≥ scenes length, `NotFound` if the
session no longer exists. -/
def updateSceneText (st : Store) (sid : String) (idx : Nat) (txt : String) :
    Except ApiError Store :=
  match storeFind st sid with
  | none => .error .NotFound
  | some s =>
      if idx < s.scenes.length then
        .ok (storeSet st sid { s with scenes := setSceneText s.scenes idx txt })
      else .error .OutOfRange

/-- Modelled from the spec: update title/author overwrites both fields
together (both required, even if only one logically changed). -/
def updateDetails (st : Store) (sid : String) (newTitle newAuthor : String) :
    Except ApiError Store :=
  match storeFind st sid with
  | none => .error .NotFound
  | some s => .ok (storeSet st sid { s with title := newTitle, author := newAuthor })

/-- The allow-listed font names; they are exactly the options of the
`font-name` select of the edit page. -/
def allowedFonts : List String := ["Helvetica", "Times-Roman", "Courier"]

/-- Modelled from the spec: update styles validates `font_name` against the
allow-listed set and `font_size` against `[8,36]`; fails `InvalidStyle`
otherwise, `NotFound` if the session is gone. -/
def updateStyles (st : Store) (sid : String) (fn : String) (fs : Int) :
    Except ApiError Store :=
  match storeFind st sid with
  | none => .error .NotFound
  | some s =>
      if fn ∈ allowedFonts ∧ 8 ≤ fs ∧ fs ≤ 36 then
        .ok (storeSet st sid { s with styles := { font_name := fn, font_size := fs } })
      else .error .InvalidStyle

/-- Modelled from the spec: regenerate scene image invokes the external
image-generation collaborator; `genResult` is that collaborator's outcome
(`none` when the external call errors).  On success the scene's `image_url`
is replaced and the new URL returned; on failure `GenerationFailed` is
raised and no state is written. -/
def regenerateImage (st : Store) (sid : String) (idx : Nat)
    (genResult : Option String) : Except ApiError (String × Store) :=
  match storeFind st sid with
  | none => .error .NotFound
  | some s =>
      if idx < s.scenes.length then
        match genResult with
        | none => .error .GenerationFailed
        | some url =>
            .ok (url, storeSet st sid { s with scenes := setSceneImage s.scenes idx url })
      else .error .OutOfRange

/-- Modelled from the spec: the external PDF rendering collaborator, a
deterministic function of the session snapshot (title, author, styles and
scenes in page order). -/
def renderPdf (s : StorybookSession) : List String :=
  s.title :: s.author :: s.styles.font_name :: toString s.styles.font_size ::
    s.scenes.map (fun sc => sc.text ++ "#" ++ sc.image_url.getD "")

/-- Modelled from the spec: preview renders the current session snapshot and
returns the bytes without mutating or destroying the session; fails
`RenderFailed` if any scene is missing required text, `NotFound` if the
session is gone.  The store component of the result is the store the
handler leaves behind. -/
def previewOp (st : Store) (sid : String) : Except ApiError (List String × Store) :=
  match storeFind st sid with
  | none => .error .NotFound
  | some s =>
      if s.scenes.any (fun sc => sc.text = "") then .error .RenderFailed
      else .ok (renderPdf s, st)

/-- Modelled from the spec: finalize/download performs the same render as
preview, returns the bytes for download, then deletes the session from the
store. -/
def downloadOp (st : Store) (sid : String) : Except ApiError (List String × Store) :=
  match previewOp st sid with
  | .error e => .error e
  | .ok (b, _) => .ok (b, storeDelete st sid)

/-! ## Client editor (from `frontend/app/storybook/edit/[sessionId]/page.tsx`) -/

/-- From `handleTextChange`: the local mirror update performed when the user
types in a scene textarea — an indexed map that replaces only the targeted
scene's `text`. -/
def handleTextChange (session : StorybookSession) (sceneIndex : Nat)
    (newText : String) : StorybookSession :=
  { session with
      scenes := session.scenes.mapIdx
        (fun i s => if i = sceneIndex then { s with text := newText } else s) }

/-- Local title/author inputs of the edit page (`storybookTitle`,
`storybookAuthor` state). -/
structure DetailsState where
  storybookTitle : String
  storybookAuthor : String
deriving Repr, DecidableEq

/-- From `handleTitleChange`: updates the local title and emits the debounced
details request carrying the new title together with the current author. -/
def handleTitleChange (st : DetailsState) (newTitle : String) :
    DetailsState × (String × String) :=
  ({ st with storybookTitle := newTitle }, (newTitle, st.storybookAuthor))

/-- From `handleAuthorChange`: updates the local author and emits the
debounced details request carrying the current title together with the new
author. -/
def handleAuthorChange (st : DetailsState) (newAuthor : String) :
    DetailsState × (String × String) :=
  ({ st with storybookAuthor := newAuthor }, (st.storybookTitle, newAuthor))

/-- From `handleRegenerateImage`: the client POSTs to the regenerate
endpoint; on an ok response with `new_image_url` it replaces that scene's
image in the local mirror, on a failed response it throws, the catch block
records the error message and the mirror is left untouched.  `resp` is the
HTTP outcome (`.error msg` when `!response.ok` or the fetch throws).
Returns the new local session mirror and the error string, if any. -/
def handleRegenerateImage (session : StorybookSession) (sceneIndex : Nat)
    (resp : Except String String) : StorybookSession × Option String :=
  match resp with
  | .error msg => (session, some msg)
  | .ok url =>
      ({ session with
          scenes := session.scenes.mapIdx
            (fun i s => if i = sceneIndex then { s with image_url := some url } else s) },
        none)

/-! ## Debounce helper (from the `debounce` function of the edit page)

The JS `debounce` keeps one shared `timeout` handle.  Every invocation
returns a fresh promise, clears any pending timer (`clearTimeout`) and
schedules a new one for `waitFor` milliseconds; when a timer fires it runs
the wrapped async function and resolves that invocation's promise once the
write completes (`func(...args).then(resolve)`).  A cleared timer never
runs, so a superseded invocation's promise is never settled (nothing ever
rejects).  The embedding gives each invocation an identifier (its promise),
keeps the single pending timer with its remaining delay, and logs completed
writes and resolved promises in order. -/

/-- State of one debounced function: the next promise identifier, the single
pending timer (promise id, captured arguments, remaining milliseconds), the
completed underlying writes in order, and the promise ids resolved in
order. -/
structure DebState (α : Type) where
  nextId : Nat
  pending : Option (Nat × α × Nat)
  writes : List (Nat × α)
  resolved : List Nat
deriving Repr, DecidableEq

/-- Events against a debounced function: an invocation with arguments, or
the passage of quiet time. -/
inductive DebEvent (α : Type) where
  | call (a : α)
  | elapse (t : Nat)
deriving Repr, DecidableEq

/-- The initial state: no pending timer, nothing written or resolved. -/
def debInit {α : Type} : DebState α :=
  { nextId := 0, pending := none, writes := [], resolved := [] }

/-- One step of the debounced function.  `call` is an invocation: it clears
the pending timer, if any, and schedules a fresh one holding the new
arguments for the full `waitFor` (the cleared invocation's promise is
abandoned, never settled).  `elapse t` lets `t` ms of quiet time pass: if it
reaches the pending delay the timer fires, the underlying write runs to
completion and then that invocation's promise is resolved. -/
def debStep {α : Type} (waitFor : Nat) (s : DebState α) : DebEvent α → DebState α
  | .call a =>
      { s with nextId := s.nextId + 1, pending := some (s.nextId, a, waitFor) }
  | .elapse t =>
      match s.pending with
      | none => s
      | some (id, a, r) =>
          if r ≤ t then
            { s with
                pending := none
                writes := s.writes ++ [(id, a)]
                resolved := s.resolved ++ [id] }
          else
            { s with pending := some (id, a, r - t) }

/-- Run a debounced function over a sequence of events. -/
def debRun {α : Type} (waitFor : Nat) (evs : List (DebEvent α)) : DebState α :=
  evs.foldl (debStep waitFor) debInit

/-- The event trace of a burst of debounced invocations: each superseded
invocation is followed by a quiet gap shorter than the wait interval, the
last invocation by a quiet period of `t`. -/
def burstTrace {α : Type} (ps : List (α × Nat)) (a0 : α) (t : Nat) :
    List (DebEvent α) :=
  (ps.map fun p => [DebEvent.call p.1, DebEvent.elapse p.2]).flatten ++
    [DebEvent.call a0, DebEvent.elapse t]

/-! ## Start-session form (from `frontend/app/storybook/page.tsx`) -/

/-- Local state of the start-session form: the story textarea, the selected
PDF file (modelled by its name), and the character/style description
inputs.  JS falsiness of the empty string is what the handlers test, so the
empty `storyText` means "absent". -/
structure StartFormState where
  storyText : String
  pdfFile : Option String
  characterDesc : String
  styleDesc : String
deriving Repr, DecidableEq

/-- From `handleFileChange`: selecting a PDF stores it and clears the story
text; clearing the file input only clears the file. -/
def handleFileChange (st : StartFormState) (file : Option String) : StartFormState :=
  match file with
  | some f => { st with pdfFile := some f, storyText := "" }
  | none => { st with pdfFile := none }

/-- From `handleStoryTextChange`: typing story text stores it and clears the
selected PDF. -/
def handleStoryTextChange (st : StartFormState) (v : String) : StartFormState :=
  { st with storyText := v, pdfFile := none }

/-- The story payload the form appends to the request body: exactly one of
`pdf_file` or `story_text`. -/
inductive StoryInput where
  | pdf (f : String)
  | text (t : String)
deriving Repr, DecidableEq

/-- From `handleFormAction`: client-side validation and body construction.
Submission is rejected with an inline error when neither story text nor a
PDF is present, or when a description is missing; otherwise the body gets
`pdf_file` if a PDF is selected, else `story_text`. -/
def handleFormAction (st : StartFormState) : Except String StoryInput :=
  if st.storyText = "" ∧ st.pdfFile = none then
    .error "Please provide either story text or a PDF file."
  else if st.characterDesc = "" ∨ st.styleDesc = "" then
    .error "Please fill out character and style descriptions."
  else
    match st.pdfFile with
    | some f => .ok (.pdf f)
    | none => .ok (.text st.storyText)

/-! ## Finalize modal (from `frontend/app/components/ui/PdfPreviewModal.tsx`) -/

/-- Outcome of the finalize-and-download click: the bytes the browser saves
to disk, the result of the cleanup fetch to the download endpoint (whose
body the client never reads), and the server store afterwards. -/
structure FinalizeOutcome where
  savedBytes : List String
  cleanupResult : Except ApiError (List String)
  storeAfter : Store

/-- From `handleFinalizeAndDownload`: the anchor's `href` is `pdfUrl`, the
blob URL of the already-fetched preview, so the file saved to disk is that
preview blob; only afterwards does the client fire a GET to the download
endpoint, ignoring whatever bytes it returns (it exists for cleanup).  If
that fetch fails the session is simply left to expire. -/
def handleFinalizeAndDownload (previewBlob : List String) (st : Store)
    (sid : String) : FinalizeOutcome :=
  match downloadOp st sid with
  | .ok (b, st') =>
      { savedBytes := previewBlob, cleanupResult := .ok b, storeAfter := st' }
  | .error e =>
      { savedBytes := previewBlob, cleanupResult := .error e, storeAfter := st }

/-! ## Concrete sessions used in traces and witnesses -/

/-- A concrete one-scene session. -/
def exSession : StorybookSession :=
  { session_id := "s1"
    styles := { font_name := "Helvetica", font_size := 14 }
    scenes := [{ text := "a", image_url := some "/img/0.png" }]
    title := "t"
    author := "au" }

/-- `exSession` after its scene text was edited to `"b"`. -/
def exSessionB : StorybookSession :=
  { exSession with scenes := [{ text := "b", image_url := some "/img/0.png" }] }

/-- A store holding only `exSession`. -/
def exStore : Store := [("s1", exSession)]

/-- A store holding only `exSessionB`. -/
def exStoreB : Store := [("s1", exSessionB)]

/-- A concrete start-form state with a PDF selected. -/
def exForm : StartFormState :=
  { storyText := ""
    pdfFile := some "f.pdf"
    characterDesc := "c"
    styleDesc := "st" }

/-! ## Store lemmas -/

/-- Overwriting a present key makes lookup return the new value. -/
theorem storeFind_storeSet_self (st : Store) (sid : String)
    (s v : StorybookSession) (h : storeFind st sid = some s) :
    storeFind (storeSet st sid v) sid = some v := by
  induction st with
  | nil => simp [storeFind] at h
  | cons hd tl ih =>
      obtain ⟨k, w⟩ := hd
      by_cases hk : k = sid
      · simp [storeFind, storeSet, hk]
      · simp [storeFind, storeSet, hk] at h ⊢
        exact ih h

/-- After deletion the key is gone. -/
theorem storeFind_storeDelete_self (st : Store) (sid : String) :
    storeFind (storeDelete st sid) sid = none := by
  induction st with
  | nil => simp [storeDelete, storeFind]
  | cons hd tl ih =>
      obtain ⟨k, w⟩ := hd
      by_cases hk : k = sid
      · simpa [storeDelete, hk] using ih
      · simpa [storeDelete, storeFind, hk] using ih

/-! ## Claim theorems -/

/-- C3: for every session and every scene_index in range, updating that
scene's text and then reading the state yields the new text at that index
while every other scene (text and image_url), the title, the author and the
styles are unchanged; the stored session agrees with the client's local
mirror update `handleTextChange`, which writes only the single text field of
the targeted scene. -/
theorem updateSceneText_frame (st : Store) (sid : String) (s : StorybookSession)
    (idx : Nat) (txt : String)
    (hfind : storeFind st sid = some s) (hidx : idx < s.scenes.length) :
    ∃ st', updateSceneText st sid idx txt = .ok st' ∧
      storeFind st' sid = some (handleTextChange s idx txt) ∧
      (handleTextChange s idx txt).scenes.length = s.scenes.length ∧
      ((handleTextChange s idx txt).scenes[idx]?).map Scene.text = some txt ∧
      ((handleTextChange s idx txt).scenes[idx]?).map Scene.image_url =
        (s.scenes[idx]?).map Scene.image_url ∧
      (∀ j, j ≠ idx → (handleTextChange s idx txt).scenes[j]? = s.scenes[j]?) ∧
      (handleTextChange s idx txt).title = s.title ∧
      (handleTextChange s idx txt).author = s.author ∧
      (handleTextChange s idx txt).styles = s.styles := by
  refine ⟨storeSet st sid (handleTextChange s idx txt), ?_,
    storeFind_storeSet_self st sid s _ hfind, ?_, ?_, ?_, ?_, rfl, rfl, rfl⟩
  · unfold updateSceneText
    rw [hfind]
    simp [hidx, setSceneText, handleTextChange]
  · simp [handleTextChange]
  · simp [handleTextChange, List.getElem?_eq_getElem hidx]
  · simp [handleTextChange, List.getElem?_eq_getElem hidx, Option.map_map]
  · intro j hj
    simp [handleTextChange, hj]

/-- C8: every update-details request carries both title and author
together: editing either field emits the full current pair (the changed
value plus the current other value), and the update operation overwrites
both stored fields with that pair, even when only one logically changed,
leaving scenes and styles alone. -/
theorem updateDetails_full_pair (st : Store) (sid : String)
    (s : StorybookSession) (dst : DetailsState) (newTitle newAuthor : String)
    (hfind : storeFind st sid = some s) :
    (handleTitleChange dst newTitle).2 = (newTitle, dst.storybookAuthor) ∧
    (handleAuthorChange dst newAuthor).2 = (dst.storybookTitle, newAuthor) ∧
    (∀ t a, ∃ st', updateDetails st sid t a = .ok st' ∧
      storeFind st' sid = some { s with title := t, author := a } ∧
      { s with title := t, author := a }.title = t ∧
      { s with title := t, author := a }.author = a ∧
      { s with title := t, author := a }.scenes = s.scenes ∧
      { s with title := t, author := a }.styles = s.styles) := by
  refine ⟨rfl, rfl, fun t a => ⟨storeSet st sid { s with title := t, author := a }, ?_,
    storeFind_storeSet_self st sid s _ hfind, rfl, rfl, rfl, rfl⟩⟩
  unfold updateDetails
  rw [hfind]

/-- C6: the update-styles operation validates font_name against the
allow-listed set and font_size against [8,36]: for a live session and an
allow-listed font, font_size 7 and 37 fail InvalidStyle while 8 and 36
succeed; in general an update succeeds exactly when the font is allow-listed
and the size lies in [8,36]. -/
theorem updateStyles_boundaries (st : Store) (sid : String)
    (s : StorybookSession) (fn : String)
    (hfind : storeFind st sid = some s) (hfn : fn ∈ allowedFonts) :
    updateStyles st sid fn 7 = .error .InvalidStyle ∧
    updateStyles st sid fn 37 = .error .InvalidStyle ∧
    (∃ st', updateStyles st sid fn 8 = .ok st') ∧
    (∃ st', updateStyles st sid fn 36 = .ok st') ∧
    (∀ (g : String) (fs : Int),
      (∃ st', updateStyles st sid g fs = .ok st') ↔
        (g ∈ allowedFonts ∧ 8 ≤ fs ∧ fs ≤ 36)) := by
  have hgen : ∀ (g : String) (fs : Int),
      (∃ st', updateStyles st sid g fs = .ok st') ↔
        (g ∈ allowedFonts ∧ 8 ≤ fs ∧ fs ≤ 36) := by
    intro g fs
    constructor
    · rintro ⟨st', h⟩
      unfold updateStyles at h
      rw [hfind] at h
      by_cases hc : g ∈ allowedFonts ∧ 8 ≤ fs ∧ fs ≤ 36
      · exact hc
      · simp [hc] at h
    · intro hc
      refine ⟨storeSet st sid
        { s with styles := { font_name := g, font_size := fs } }, ?_⟩
      unfold updateStyles
      rw [hfind]
      simp [hc]
  refine ⟨?_, ?_, ?_, ?_, hgen⟩
  · unfold updateStyles
    rw [hfind]
    simp
  · unfold updateStyles
    rw [hfind]
    simp
  · exact (hgen fn 8).2 ⟨hfn, by norm_num, by norm_num⟩
  · exact (hgen fn 36).2 ⟨hfn, by norm_num, by norm_num⟩

/-- C4: if the regenerate-image operation fails (the external collaborator
errors, or the HTTP response is not ok / the fetch throws on the client),
the scene's previous image_url is left unchanged: the backend raises
GenerationFailed without writing any state, and the client catch block
surfaces the error message while leaving the local session mirror — and in
particular every scene's image_url — exactly as it was. -/
theorem regenerate_failure_frame (st : Store) (sid : String)
    (s : StorybookSession) (idx : Nat) (msg : String)
    (hfind : storeFind st sid = some s) (hidx : idx < s.scenes.length) :
    regenerateImage st sid idx none = .error .GenerationFailed ∧
    handleRegenerateImage s idx (.error msg) = (s, some msg) ∧
    (handleRegenerateImage s idx (.error msg)).1.scenes = s.scenes := by
  refine ⟨?_, rfl, rfl⟩
  unfold regenerateImage
  rw [hfind]
  simp [hidx]

/-- C7: preview is idempotent and non-mutating: for a live session whose
scenes all carry text, preview returns the rendered bytes of the current
snapshot and leaves the store exactly as it was, and any two consecutive
calls with no intervening edit produce identical bytes and the unchanged
store. -/
theorem preview_idempotent (st : Store) (sid : String) (s : StorybookSession)
    (hfind : storeFind st sid = some s)
    (hre : (s.scenes.any fun sc => sc.text = "") = false) :
    previewOp st sid = .ok (renderPdf s, st) ∧
    (∀ b st1, previewOp st sid = .ok (b, st1) →
      st1 = st ∧ previewOp st1 sid = .ok (b, st1)) := by
  have h1 : previewOp st sid = .ok (renderPdf s, st) := by
    unfold previewOp
    rw [hfind]
    simp [hre]
  refine ⟨h1, ?_⟩
  intro b st1 h2
  rw [h1] at h2
  obtain ⟨hb, hst⟩ := by simpa using h2
  subst hb
  subst hst
  exact ⟨rfl, h1⟩

/-- C2: finalize is a terminal, one-way transition: once finalize/download
has completed on a session_id, every subsequent get, scene-text update,
details update, styles update, regenerate, preview or repeated download on
that session_id fails NotFound. -/
theorem download_terminal (st st' : Store) (sid : String) (b : List String)
    (h : downloadOp st sid = .ok (b, st')) :
    getState st' sid = .error .NotFound ∧
    (∀ idx txt, updateSceneText st' sid idx txt = .error .NotFound) ∧
    (∀ t a, updateDetails st' sid t a = .error .NotFound) ∧
    (∀ fn fs, updateStyles st' sid fn fs = .error .NotFound) ∧
    (∀ idx g, regenerateImage st' sid idx g = .error .NotFound) ∧
    previewOp st' sid = .error .NotFound ∧
    downloadOp st' sid = .error .NotFound := by
  have hst : st' = storeDelete st sid := by
    unfold downloadOp at h
    revert h
    cases hp : previewOp st sid with
    | error e => intro h; simp at h
    | ok p =>
        obtain ⟨b2, stx⟩ := p
        intro h
        simp only [Except.ok.injEq, Prod.mk.injEq] at h
        exact h.2.symm
  subst hst
  have hnone : storeFind (storeDelete st sid) sid = none :=
    storeFind_storeDelete_self st sid
  refine ⟨?_, ?_, ?_, ?_, ?_, ?_, ?_⟩
  · simp [getState, hnone]
  · intro idx txt; simp [updateSceneText, hnone]
  · intro t a; simp [updateDetails, hnone]
  · intro fn fs; simp [updateStyles, hnone]
  · intro idx g; simp [regenerateImage, hnone]
  · simp [previewOp, hnone]
  · simp [downloadOp, previewOp, hnone]

/-- Helper: folding a burst of invocations whose following gaps are all
shorter than the wait interval completes no write and resolves no promise;
only the invocation counter advances (and some timer may be left pending).
-/
theorem debStep_burst_foldl {α : Type} (w : Nat) (ps : List (α × Nat))
    (hgap : ∀ p ∈ ps, p.2 < w) :
    ∀ s : DebState α, ∃ pend,
      ((ps.map fun p => [DebEvent.call p.1, DebEvent.elapse p.2]).flatten).foldl
        (debStep w) s =
        { nextId := s.nextId + ps.length, pending := pend,
          writes := s.writes, resolved := s.resolved } := by
  induction ps with
  | nil => intro s; exact ⟨s.pending, by simp⟩
  | cons p rest ih =>
      intro s
      obtain ⟨a, tgap⟩ := p
      have hless : tgap < w := hgap (a, tgap) (by simp)
      have hnot : ¬ w ≤ tgap := Nat.not_le.mpr hless
      obtain ⟨pend, hrest⟩ := ih (fun q hq => hgap q (List.mem_cons_of_mem _ hq))
        { nextId := s.nextId + 1, pending := some (s.nextId, a, w - tgap),
          writes := s.writes, resolved := s.resolved }
      refine ⟨pend, ?_⟩
      have hstep : List.foldl (debStep w) s [DebEvent.call a, DebEvent.elapse tgap] =
          { nextId := s.nextId + 1, pending := some (s.nextId, a, w - tgap),
            writes := s.writes, resolved := s.resolved } := by
        simp [debStep, hnot]
      simp only [List.map_cons, List.flatten_cons, List.foldl_append, hstep]
      rw [hrest]
      simp [Nat.add_assoc, Nat.add_comm 1 rest.length]

/-- Helper: a burst of invocations, each superseded within the wait
interval, followed by a final invocation and a quiet period of at least the
wait interval, ends with no pending timer, exactly one completed write
carrying the final invocation's arguments, and exactly that invocation's
promise resolved. -/
theorem debRun_burst {α : Type} (w t : Nat) (ps : List (α × Nat)) (a0 : α)
    (hgap : ∀ p ∈ ps, p.2 < w) (hw : w ≤ t) :
    debRun w (burstTrace ps a0 t) =
      { nextId := ps.length + 1
        pending := none
        writes := [(ps.length, a0)]
        resolved := [ps.length] } := by
  unfold debRun burstTrace
  rw [List.foldl_append]
  obtain ⟨pend, h⟩ := debStep_burst_foldl w ps hgap debInit
  rw [h]
  simp [debInit, debStep, hw]

/-- C5: every new call to a debounced save clears the pending timer and
schedules a fresh one at the full wait interval; for every burst of calls in
which each call is superseded within the wait interval, once the wait
interval elapses after the last call with no further calls exactly one
underlying write fires, carrying the arguments of that last call — the
superseded calls never cause a write. -/
theorem debounce_fires_last {α : Type} (w t : Nat) (ps : List (α × Nat))
    (a0 : α) (hgap : ∀ p ∈ ps, p.2 < w) (hw : w ≤ t) :
    (∀ (s : DebState α) (a : α),
      (debStep w s (DebEvent.call a)).pending = some (s.nextId, a, w)) ∧
    (debRun w (burstTrace ps a0 t)).writes = [(ps.length, a0)] ∧
    (debRun w (burstTrace ps a0 t)).pending = none := by
  refine ⟨fun s a => rfl, ?_, ?_⟩ <;> rw [debRun_burst w t ps a0 hgap hw]

/-- C10: a debounced call superseded by a newer call before its timer fires
never has its promise settled; in a burst of calls followed by a quiet
period, only the promise of the last call — the one whose timer fires — is
resolved, and every resolved promise has its underlying write already
completed. -/
theorem debounce_promise_settlement {α : Type} (w t : Nat) (ps : List (α × Nat))
    (a0 : α) (hgap : ∀ p ∈ ps, p.2 < w) (hw : w ≤ t) :
    (debRun w (burstTrace ps a0 t)).resolved = [ps.length] ∧
    (∀ i, i < ps.length → i ∉ (debRun w (burstTrace ps a0 t)).resolved) ∧
    (∀ i ∈ (debRun w (burstTrace ps a0 t)).resolved,
      ∃ a, (i, a) ∈ (debRun w (burstTrace ps a0 t)).writes) := by
  rw [debRun_burst w t ps a0 hgap hw]
  refine ⟨rfl, ?_, ?_⟩
  · intro i hi hmem
    simp at hmem
    omega
  · intro i hmem
    simp at hmem
    exact ⟨a0, by simp [hmem]⟩

/-- C9: the start-session form submits exactly one of story_text or
pdf_file: selecting a PDF clears the story text, typing story text clears
the selected PDF, submission is rejected client-side when neither is
present, when a PDF is selected it takes precedence in the request body, and
every accepted submission carries either the PDF or the story text, never
both. -/
theorem start_form_exclusive (st : StartFormState) (f v : String) :
    (handleFileChange st (some f)).storyText = "" ∧
    (handleFileChange st (some f)).pdfFile = some f ∧
    (handleStoryTextChange st v).pdfFile = none ∧
    (handleStoryTextChange st v).storyText = v ∧
    (st.storyText = "" → st.pdfFile = none → ∃ e, handleFormAction st = .error e) ∧
    (∀ g, st.pdfFile = some g → st.characterDesc ≠ "" → st.styleDesc ≠ "" →
      handleFormAction st = .ok (.pdf g)) ∧
    (∀ body, handleFormAction st = .ok body →
      (∃ g, st.pdfFile = some g ∧ body = .pdf g) ∨
      (st.pdfFile = none ∧ st.storyText ≠ "" ∧ body = .text st.storyText)) := by
  refine ⟨rfl, rfl, rfl, rfl, ?_, ?_, ?_⟩
  · intro h1 h2
    exact ⟨"Please provide either story text or a PDF file.",
      by simp [handleFormAction, h1, h2]⟩
  · intro g hg hc hs
    simp [handleFormAction, hg, hc, hs]
  · intro body h
    unfold handleFormAction at h
    by_cases h1 : st.storyText = "" ∧ st.pdfFile = none
    · simp [h1] at h
    · rw [if_neg h1] at h
      by_cases h2 : st.characterDesc = "" ∨ st.styleDesc = ""
      · simp [h2] at h
      · rw [if_neg h2] at h
        revert h
        cases hp : st.pdfFile with
        | some g => intro h; exact Or.inl ⟨g, rfl, (Except.ok.injEq _ _).mp h.symm⟩
        | none =>
            intro h
            refine Or.inr ⟨rfl, ?_, (Except.ok.injEq _ _).mp h.symm⟩
            intro htxt
            exact h1 ⟨htxt, hp⟩

/-- C1 counterexample: the bytes the user downloads on finalize are not, in
general, the bytes returned by the download endpoint.  In this trace a
preview is taken, the scene text is then edited from "a" to "b", and the
user clicks finalize: the browser saves the stale preview blob (rendered
from "a") while the download endpoint renders and returns bytes for "b" —
two different byte strings, the endpoint's being discarded unread by the
client. -/
theorem finalize_bytes_counterexample :
    previewOp exStore "s1" = .ok (renderPdf exSession, exStore) ∧
    updateSceneText exStore "s1" 0 "b" = .ok exStoreB ∧
    (handleFinalizeAndDownload (renderPdf exSession) exStoreB "s1").savedBytes =
      renderPdf exSession ∧
    (handleFinalizeAndDownload (renderPdf exSession) exStoreB "s1").cleanupResult =
      .ok (renderPdf exSessionB) ∧
    renderPdf exSession ≠ renderPdf exSessionB := by
  refine ⟨rfl, rfl, rfl, rfl, ?_⟩
  decide

/-- C1 amended: the download endpoint performs the same render as preview on
the current snapshot, returns those bytes, and deletes the session; the
client's finalize click, however, saves the previously fetched preview blob
to disk and discards the endpoint's response bytes, so the saved file equals
the endpoint's bytes exactly when no edit intervened between the preview and
the finalize (as here, where the endpoint is called on the unchanged
store). -/
theorem finalize_download_amended (st : Store) (sid : String)
    (s : StorybookSession) (hfind : storeFind st sid = some s)
    (hre : (s.scenes.any fun sc => sc.text = "") = false) :
    previewOp st sid = .ok (renderPdf s, st) ∧
    downloadOp st sid = .ok (renderPdf s, storeDelete st sid) ∧
    (handleFinalizeAndDownload (renderPdf s) st sid).savedBytes = renderPdf s ∧
    (handleFinalizeAndDownload (renderPdf s) st sid).cleanupResult =
      .ok (renderPdf s) ∧
    (handleFinalizeAndDownload (renderPdf s) st sid).storeAfter =
      storeDelete st sid := by
  have hp : previewOp st sid = .ok (renderPdf s, st) := by
    unfold previewOp
    rw [hfind]
    simp [hre]
  have hd : downloadOp st sid = .ok (renderPdf s, storeDelete st sid) := by
    unfold downloadOp
    rw [hp]
  refine ⟨hp, hd, ?_, ?_, ?_⟩ <;> simp [handleFinalizeAndDownload, hd]

/-! ## Witnesses: the claim theorems instantiated at concrete inputs -/

/-- Witness for C3 at the concrete one-scene session. -/
theorem updateSceneText_frame_witness :
    ∃ st', updateSceneText exStore "s1" 0 "b" = .ok st' ∧
      storeFind st' "s1" = some (handleTextChange exSession 0 "b") ∧
      (handleTextChange exSession 0 "b").scenes.length = exSession.scenes.length ∧
      ((handleTextChange exSession 0 "b").scenes[0]?).map Scene.text = some "b" ∧
      ((handleTextChange exSession 0 "b").scenes[0]?).map Scene.image_url =
        (exSession.scenes[0]?).map Scene.image_url ∧
      (∀ j, j ≠ 0 → (handleTextChange exSession 0 "b").scenes[j]? = exSession.scenes[j]?) ∧
      (handleTextChange exSession 0 "b").title = exSession.title ∧
      (handleTextChange exSession 0 "b").author = exSession.author ∧
      (handleTextChange exSession 0 "b").styles = exSession.styles :=
  updateSceneText_frame exStore "s1" exSession 0 "b" rfl (by decide)

/-- Witness for C8 at concrete details and a concrete store. -/
theorem updateDetails_full_pair_witness :
    (handleTitleChange ⟨"t0", "a0"⟩ "t1").2 = ("t1", "a0") ∧
    (handleAuthorChange ⟨"t0", "a0"⟩ "a1").2 = ("t0", "a1") ∧
    (∃ st', updateDetails exStore "s1" "T" "A" = .ok st' ∧
      storeFind st' "s1" = some { exSession with title := "T", author := "A" } ∧
      { exSession with title := "T", author := "A" }.title = "T" ∧
      { exSession with title := "T", author := "A" }.author = "A" ∧
      { exSession with title := "T", author := "A" }.scenes = exSession.scenes ∧
      { exSession with title := "T", author := "A" }.styles = exSession.styles) :=
  ⟨(updateDetails_full_pair exStore "s1" exSession ⟨"t0", "a0"⟩ "t1" "a1" rfl).1,
   (updateDetails_full_pair exStore "s1" exSession ⟨"t0", "a0"⟩ "t1" "a1" rfl).2.1,
   (updateDetails_full_pair exStore "s1" exSession ⟨"t0", "a0"⟩ "t1" "a1" rfl).2.2 "T" "A"⟩

/-- Witness for C6 at the concrete store with an allow-listed font. -/
theorem updateStyles_boundaries_witness :
    updateStyles exStore "s1" "Helvetica" 7 = .error .InvalidStyle ∧
    updateStyles exStore "s1" "Helvetica" 37 = .error .InvalidStyle ∧
    (∃ st', updateStyles exStore "s1" "Helvetica" 8 = .ok st') ∧
    (∃ st', updateStyles exStore "s1" "Helvetica" 36 = .ok st') :=
  ⟨(updateStyles_boundaries exStore "s1" exSession "Helvetica" rfl (by decide)).1,
   (updateStyles_boundaries exStore "s1" exSession "Helvetica" rfl (by decide)).2.1,
   (updateStyles_boundaries exStore "s1" exSession "Helvetica" rfl (by decide)).2.2.1,
   (updateStyles_boundaries exStore "s1" exSession "Helvetica" rfl (by decide)).2.2.2.1⟩

/-- Witness for C4 at the concrete store and scene 0. -/
theorem regenerate_failure_frame_witness :
    regenerateImage exStore "s1" 0 none = .error .GenerationFailed ∧
    handleRegenerateImage exSession 0 (.error "Failed to regenerate image.") =
      (exSession, some "Failed to regenerate image.") :=
  ⟨(regenerate_failure_frame exStore "s1" exSession 0
      "Failed to regenerate image." rfl (by decide)).1,
   (regenerate_failure_frame exStore "s1" exSession 0
      "Failed to regenerate image." rfl (by decide)).2.1⟩

/-- Witness for C7 at the concrete store: two consecutive previews. -/
theorem preview_idempotent_witness :
    previewOp exStore "s1" = .ok (renderPdf exSession, exStore) ∧
    (exStore = exStore ∧ previewOp exStore "s1" = .ok (renderPdf exSession, exStore)) :=
  ⟨(preview_idempotent exStore "s1" exSession rfl (by decide)).1,
   (preview_idempotent exStore "s1" exSession rfl (by decide)).2
     (renderPdf exSession) exStore
     (preview_idempotent exStore "s1" exSession rfl (by decide)).1⟩

/-- Witness for C2: a concrete download followed by failing operations. -/
theorem download_terminal_witness :
    getState (storeDelete exStore "s1") "s1" = .error .NotFound ∧
    updateSceneText (storeDelete exStore "s1") "s1" 0 "x" = .error .NotFound ∧
    previewOp (storeDelete exStore "s1") "s1" = .error .NotFound :=
  ⟨(download_terminal exStore (storeDelete exStore "s1") "s1"
      (renderPdf exSession) rfl).1,
   (download_terminal exStore (storeDelete exStore "s1") "s1"
      (renderPdf exSession) rfl).2.1 0 "x",
   (download_terminal exStore (storeDelete exStore "s1") "s1"
      (renderPdf exSession) rfl).2.2.2.2.2.1⟩

/-- Witness for C5: two calls 500 ms apart then a quiet second fire exactly
one write with the second call's arguments. -/
theorem debounce_fires_last_witness :
    (debRun 1000 (burstTrace ([((0 : Nat), 500)]) 1 1000)).writes = [(1, 1)] ∧
    (debRun 1000 (burstTrace ([((0 : Nat), 500)]) 1 1000)).pending = none :=
  ⟨(debounce_fires_last 1000 1000 [(0, 500)] 1 (by decide) (by decide)).2.1,
   (debounce_fires_last 1000 1000 [(0, 500)] 1 (by decide) (by decide)).2.2⟩

/-- Witness for C10: the superseded first call's promise is never settled,
only the second call's is. -/
theorem debounce_promise_settlement_witness :
    (debRun 1000 (burstTrace ([((0 : Nat), 500)]) 1 1000)).resolved = [1] ∧
    0 ∉ (debRun 1000 (burstTrace ([((0 : Nat), 500)]) 1 1000)).resolved :=
  ⟨(debounce_promise_settlement 1000 1000 [(0, 500)] 1 (by decide) (by decide)).1,
   (debounce_promise_settlement 1000 1000 [(0, 500)] 1 (by decide) (by decide)).2.1
     0 (by decide)⟩

/-- Witness for C9: with a PDF selected the accepted body is the PDF. -/
theorem start_form_exclusive_witness :
    handleFormAction exForm = .ok (.pdf "f.pdf") :=
  (start_form_exclusive exForm "f.pdf" "v").2.2.2.2.2.1
    "f.pdf" rfl (by decide) (by decide)

/-- Witness for the amended C1 at the concrete store with no intervening
edit. -/
theorem finalize_download_amended_witness :
    downloadOp exStore "s1" = .ok (renderPdf exSession, storeDelete exStore "s1") ∧
    (handleFinalizeAndDownload (renderPdf exSession) exStore "s1").savedBytes =
      renderPdf exSession ∧
    (handleFinalizeAndDownload (renderPdf exSession) exStore "s1").cleanupResult =
      .ok (renderPdf exSession) :=
  ⟨(finalize_download_amended exStore "s1" exSession rfl (by decide)).2.1,
   (finalize_download_amended exStore "s1" exSession rfl (by decide)).2.2.1,
   (finalize_download_amended exStore "s1" exSession rfl (by decide)).2.2.2.1⟩

end AiContentSuite
